import Mathlib

/-!
Verification of the solar-irradiance core of the balcon repository.

The irradiance model is embedded from the `SunIntensityBar` component
(`calculateAirMass`, `calculateAtmosphericTransmittance`, `calculateIntensity`,
the variant taking a surface tilt), with JavaScript floating-point numbers
modelled as exact reals and the float value `Infinity` returned by
`calculateAirMass` modelled as `none : Option ℝ`.

The day sampler is embedded from `computeSunPositionData` in `SunlightTimer`,
with instants modelled as milliseconds after local midnight of the selected
day; on a standard (non-DST-transition) civil day `setHours(23,59,59,999)`
yields the offset 86399999 and `setMinutes(+m)` adds `m * 60000` milliseconds.
The loop is written with a fuel argument of 86400000, which strictly exceeds
the number of iterations for every positive interval, so the fuel never runs
out and the embedding agrees with the unbounded JavaScript loop.
-/

/-- Sun position as produced by the sun-position provider: azimuth in radians
measured from North increasing toward East, altitude in radians above the
horizon. -/
structure SunPosition where
  azimuth : ℝ
  altitude : ℝ

/-- Denominator of the Kasten-Young air-mass formula, written exactly as in
`calculateAirMass`: `sin(alt) + 0.50572 * (alt * 180 / π + 6.07995) ^ (-1.6364)`. -/
noncomputable def amDenom (altitudeRadians : ℝ) : ℝ :=
  Real.sin altitudeRadians +
    0.50572 * (altitudeRadians * 180 / Real.pi + 6.07995) ^ (-1.6364 : ℝ)

/-- Air-mass factor from sun altitude (Kasten-Young formula).  `none` models
the JavaScript value `Infinity` returned when the sun is at or below the
horizon. -/
noncomputable def calculateAirMass (altitudeRadians : ℝ) : Option ℝ :=
  if altitudeRadians ≤ 0 then none
  else some (1 / amDenom altitudeRadians)

/-- Atmospheric transmittance from the air mass: `0` when the air mass is
infinite, otherwise `clamp (0.8 * exp (-0.08 * (AM - 1))) [0,1]`, matching
`Math.max(0, Math.min(1, tau0 * Math.exp(-k * (airMass - 1))))`. -/
noncomputable def calculateAtmosphericTransmittance : Option ℝ → ℝ
  | none => 0
  | some airMass => max 0 (min 1 (0.8 * Real.exp (-0.08 * (airMass - 1))))

/-- Dot product of the sun direction vector and the surface outward normal in
the East-North-Up frame, exactly the `dotProduct` computed inside
`calculateIntensity`. -/
noncomputable def dotProduct (azimuthRad altitudeRad sideAzimuthRadians surfaceAltitudeRadians : ℝ) : ℝ :=
  Real.sin azimuthRad * Real.cos altitudeRad *
      (Real.sin sideAzimuthRadians * Real.cos surfaceAltitudeRadians) +
    Real.cos azimuthRad * Real.cos altitudeRad *
      (Real.cos sideAzimuthRadians * Real.cos surfaceAltitudeRadians) +
    Real.sin altitudeRad * Real.sin surfaceAltitudeRadians

/-- Sunlight intensity of a surface: geometric factor `max 0 dotProduct`
times the atmospheric transmittance of the air mass at the sun's altitude. -/
noncomputable def calculateIntensity (sunPosition : SunPosition)
    (sideAzimuthRadians surfaceAltitudeRadians : ℝ) : ℝ :=
  max 0 (dotProduct sunPosition.azimuth sunPosition.altitude
      sideAzimuthRadians surfaceAltitudeRadians) *
    calculateAtmosphericTransmittance (calculateAirMass sunPosition.altitude)

/-- The dot product in closed trigonometric form. -/
lemma dotProduct_eq (az alt saz t : ℝ) :
    dotProduct az alt saz t =
      Real.cos alt * Real.cos t * Real.cos (az - saz) +
        Real.sin alt * Real.sin t := by
  unfold dotProduct
  rw [Real.cos_sub]
  ring

/-- The dot product of the two unit vectors never exceeds 1. -/
lemma dotProduct_le_one (az alt saz t : ℝ) : dotProduct az alt saz t ≤ 1 := by
  rw [dotProduct_eq]
  have h1 : Real.cos (az - saz) ≤ 1 := Real.cos_le_one _
  have h2 : -1 ≤ Real.cos (az - saz) := Real.neg_one_le_cos _
  have h3 : Real.cos (alt - t) ≤ 1 := Real.cos_le_one _
  have h4 : -1 ≤ Real.cos (alt + t) := Real.neg_one_le_cos _
  rw [Real.cos_sub] at h3
  rw [Real.cos_add] at h4
  rcases le_or_lt 0 (Real.cos alt * Real.cos t) with h | h
  · nlinarith [mul_le_mul_of_nonneg_left h1 h]
  · nlinarith [mul_nonneg (neg_nonneg.mpr h.le)
      (by linarith : (0:ℝ) ≤ Real.cos (az - saz) + 1)]

/-- The transmittance is nonnegative for every air-mass value. -/
lemma tau_nonneg (o : Option ℝ) : 0 ≤ calculateAtmosphericTransmittance o := by
  cases o with
  | none => exact le_refl 0
  | some a => exact le_max_left _ _

/-- The transmittance never exceeds 1. -/
lemma tau_le_one (o : Option ℝ) : calculateAtmosphericTransmittance o ≤ 1 := by
  cases o with
  | none => exact zero_le_one
  | some a => exact max_le zero_le_one (min_le_left _ _)

/-- C1: for every sun position and surface orientation the intensity lies in
the closed interval `[0, 1]`: the geometric factor is `max 0` of a dot product
of unit vectors and the transmittance is clamped to `[0, 1]`. -/
theorem claim_C1 (sp : SunPosition) (saz t : ℝ) :
    0 ≤ calculateIntensity sp saz t ∧ calculateIntensity sp saz t ≤ 1 := by
  unfold calculateIntensity
  refine ⟨mul_nonneg (le_max_left _ _) (tau_nonneg _), ?_⟩
  exact mul_le_one₀ (max_le zero_le_one (dotProduct_le_one _ _ _ _))
    (tau_nonneg _) (tau_le_one _)

/-- C2: whenever the sun altitude is at or below the horizon the air mass is
infinite, the transmittance is 0, and the intensity is exactly 0 for every
surface orientation. -/
theorem claim_C2 (sp : SunPosition) (saz t : ℝ) (h : sp.altitude ≤ 0) :
    calculateIntensity sp saz t = 0 := by
  unfold calculateIntensity calculateAirMass
  rw [if_pos h]
  simp [calculateAtmosphericTransmittance]

/-- Witness for C2 at the concrete input: sun on the horizon, any surface. -/
theorem claim_C2_witness :
    (SunPosition.mk 0 0).altitude ≤ 0 ∧ calculateIntensity ⟨0, 0⟩ 0 0 = 0 :=
  ⟨le_refl 0, claim_C2 ⟨0, 0⟩ 0 0 (le_refl 0)⟩

/-- C7: whenever the dot product of the sun direction and the surface outward
normal is nonpositive (the sun is behind the surface), the geometric factor is
clamped to 0 and the intensity is exactly 0. -/
theorem claim_C7 (az alt saz t : ℝ) (h : dotProduct az alt saz t ≤ 0) :
    calculateIntensity ⟨az, alt⟩ saz t = 0 := by
  unfold calculateIntensity
  simp only [max_eq_left h, zero_mul]

/-- Witness for C7 at the opposing-face input of the spec: sun azimuth π
(South) at altitude π/4, wall facing North (azimuth 0, tilt 0). -/
theorem claim_C7_witness :
    dotProduct Real.pi (Real.pi / 4) 0 0 ≤ 0 ∧
      calculateIntensity ⟨Real.pi, Real.pi / 4⟩ 0 0 = 0 := by
  have hc : 0 ≤ Real.cos (Real.pi / 4) := by
    apply Real.cos_nonneg_of_mem_Icc
    constructor <;> nlinarith [Real.pi_pos]
  have h : dotProduct Real.pi (Real.pi / 4) 0 0 ≤ 0 := by
    rw [dotProduct_eq]
    simp [Real.cos_pi]
    positivity
  exact ⟨h, claim_C7 _ _ _ _ h⟩

/-- C8: for the roof surface (tilt = π/2) the surface azimuth is irrelevant:
the normal degenerates to `(0, 0, 1)`, so any two side azimuths give the same
intensity for every sun position. -/
theorem claim_C8 (sp : SunPosition) (a1 a2 : ℝ) :
    calculateIntensity sp a1 (Real.pi / 2) =
      calculateIntensity sp a2 (Real.pi / 2) := by
  unfold calculateIntensity dotProduct
  rw [Real.cos_pi_div_two]
  ring_nf

/-- C10: the intensity depends on the two azimuths only through their
difference, because the dot product reduces to
`cos(alt) * cos(tilt) * cos(az - saz) + sin(alt) * sin(tilt)`; shifting both
azimuths by a common offset leaves the intensity unchanged. -/
theorem claim_C10 (az alt saz t d : ℝ) :
    dotProduct az alt saz t =
        Real.cos alt * Real.cos t * Real.cos (az - saz) +
          Real.sin alt * Real.sin t ∧
      calculateIntensity ⟨az + d, alt⟩ (saz + d) t =
        calculateIntensity ⟨az, alt⟩ saz t := by
  refine ⟨dotProduct_eq az alt saz t, ?_⟩
  unfold calculateIntensity
  rw [dotProduct_eq, dotProduct_eq,
    show az + d - (saz + d) = az - saz from by ring]

/-- One step of the sampling loop of `computeSunPositionData`: starting from
offset `d` milliseconds after local midnight, emit `d` while `d ≤ 86399999`
(the `end` instant `23:59:59.999`) and continue at `d + step`.  The `fuel`
argument only bounds the recursion; with `fuel = 86400000` it strictly
exceeds the iteration count for every positive step, so the embedding agrees
with the unbounded JavaScript `for` loop. -/
def sampleLoop (step : ℕ) : ℕ → ℕ → List ℕ
  | 0, _ => []
  | fuel + 1, d => if d ≤ 86399999 then d :: sampleLoop step fuel (d + step) else []

/-- The day sampler of `SunlightTimer`: instants every `intervalMinutes`
minutes from local midnight through `23:59:59.999`, each paired with the
position returned by the sun-position provider (`SunCalc.getPosition`,
abstracted as the function argument). -/
def computeSunPositionData (getPosition : ℕ → SunPosition) (intervalMinutes : ℕ) :
    List (ℕ × SunPosition) :=
  (sampleLoop (intervalMinutes * 60000) 86400000 0).map fun t => (t, getPosition t)

/-- Past the end-of-day cutoff the loop emits nothing, for any fuel. -/
lemma sampleLoop_nil (step fuel d : ℕ) (h : 86399999 < d) :
    sampleLoop step fuel d = [] := by
  cases fuel with
  | zero => rfl
  | succ n => simp [sampleLoop, Nat.not_le.mpr h]

/-- Exact length of the sampling loop: one sample for every multiple of the
stride from `d` up to the cutoff. -/
lemma sampleLoop_length (step : ℕ) (hstep : 0 < step) :
    ∀ fuel d, d ≤ 86399999 → 86400000 - d ≤ fuel →
      (sampleLoop step fuel d).length = (86399999 - d) / step + 1 := by
  intro fuel
  induction fuel with
  | zero => intro d hd hf; omega
  | succ n ih =>
    intro d hd hf
    rw [sampleLoop, if_pos hd]
    rcases le_or_lt (d + step) 86399999 with h | h
    · rw [List.length_cons, ih (d + step) h (by omega)]
      have hsub : 86399999 - (d + step) = 86399999 - d - step := by omega
      have hle : step ≤ 86399999 - d := by omega
      rw [hsub, Nat.div_eq_sub_div hstep hle]
    · rw [sampleLoop_nil step n (d + step) h]
      have : 86399999 - d < step := by omega
      simp [Nat.div_eq_of_lt this]

/-- Every emitted offset lies at or before the cutoff `23:59:59.999`. -/
lemma sampleLoop_le (step : ℕ) :
    ∀ fuel d, ∀ x ∈ sampleLoop step fuel d, x ≤ 86399999 := by
  intro fuel
  induction fuel with
  | zero => intro d x hx; simp [sampleLoop] at hx
  | succ n ih =>
    intro d x hx
    rw [sampleLoop] at hx
    by_cases hd : d ≤ 86399999
    · rw [if_pos hd] at hx
      rcases List.mem_cons.mp hx with rfl | hx'
      · exact hd
      · exact ih (d + step) x hx'
    · rw [if_neg hd] at hx
      simp at hx

/-- Every emitted offset is at least the starting offset. -/
lemma sampleLoop_ge (step : ℕ) :
    ∀ fuel d, ∀ x ∈ sampleLoop step fuel d, d ≤ x := by
  intro fuel
  induction fuel with
  | zero => intro d x hx; simp [sampleLoop] at hx
  | succ n ih =>
    intro d x hx
    rw [sampleLoop] at hx
    by_cases hd : d ≤ 86399999
    · rw [if_pos hd] at hx
      rcases List.mem_cons.mp hx with rfl | hx'
      · exact le_refl x
      · exact le_trans (by omega) (ih (d + step) x hx')
    · rw [if_neg hd] at hx
      simp at hx

/-- The emitted offsets are strictly increasing. -/
lemma sampleLoop_chain (step : ℕ) (hstep : 0 < step) :
    ∀ fuel d, List.Chain' (fun a b => a < b) (sampleLoop step fuel d) := by
  intro fuel
  induction fuel with
  | zero => intro d; simp [sampleLoop]
  | succ n ih =>
    intro d
    rw [sampleLoop]
    by_cases hd : d ≤ 86399999
    · rw [if_pos hd]
      refine List.chain'_cons'.mpr ⟨?_, ih (d + step)⟩
      intro y hy
      have : d + step ≤ y :=
        sampleLoop_ge step n (d + step) y (List.mem_of_mem_head? hy)
      omega
    · rw [if_neg hd]
      simp

/-- Length of the sampled day in terms of the interval in minutes. -/
lemma computeSunPositionData_length (f : ℕ → SunPosition) (m : ℕ) (hm : 0 < m) :
    (computeSunPositionData f m).length = 1439 / m + 1 := by
  unfold computeSunPositionData
  rw [List.length_map,
    sampleLoop_length (m * 60000) (Nat.mul_pos hm (by norm_num)) 86400000 0
      (by norm_num) (by norm_num)]
  have h1 : 86399999 - 0 = 86399999 := rfl
  have h2 : 86399999 / (m * 60000) = 1439 / m := by
    rw [Nat.mul_comm, ← Nat.div_div_eq_div_mul]
  rw [h1, h2]

/-- The instants of the sampled day are exactly the loop's offsets. -/
lemma computeSunPositionData_map_fst (f : ℕ → SunPosition) (m : ℕ) :
    (computeSunPositionData f m).map Prod.fst =
      sampleLoop (m * 60000) 86400000 0 := by
  unfold computeSunPositionData
  rw [List.map_map]
  rw [show (Prod.fst ∘ fun t => (t, f t)) = id from rfl, List.map_id]

/-- C3: for a 15-minute interval over a standard day, the sampler yields
exactly 96 samples, the first at local midnight (offset 0), every sample at
or before 23:59:59.999 (offset 86399999), in strictly increasing order. -/
theorem claim_C3 (f : ℕ → SunPosition) :
    (computeSunPositionData f 15).length = 96 ∧
      ((computeSunPositionData f 15).map Prod.fst).head? = some 0 ∧
      (∀ s ∈ computeSunPositionData f 15, s.1 ≤ 86399999) ∧
      List.Chain' (fun a b => a < b) ((computeSunPositionData f 15).map Prod.fst) := by
  refine ⟨?_, ?_, ?_, ?_⟩
  · rw [computeSunPositionData_length f 15 (by norm_num)]
  · rw [computeSunPositionData_map_fst]
    rw [show (86400000 : ℕ) = 86399999 + 1 from rfl, sampleLoop,
      if_pos (by norm_num : (0:ℕ) ≤ 86399999)]
    rfl
  · intro s hs
    have : s.1 ∈ (computeSunPositionData f 15).map Prod.fst :=
      List.mem_map_of_mem Prod.fst hs
    rw [computeSunPositionData_map_fst] at this
    exact sampleLoop_le _ _ _ _ this
  · rw [computeSunPositionData_map_fst]
    exact sampleLoop_chain (15 * 60000) (by norm_num) 86400000 0

/-- C6 counterexample: for a 7-minute stride (which does not divide 1440) the
sampler yields 206 = ceil(1440/7) samples, not ceil(1440/7) + 1 = 207 as the
claim states. -/
theorem claim_C6_counterexample :
    ¬ (computeSunPositionData (fun _ => ⟨0, 0⟩) 7).length = (1440 + 7 - 1) / 7 + 1 := by
  rw [computeSunPositionData_length _ 7 (by norm_num)]
  norm_num

/-- C6 amended: for every positive interval the sample count is exactly
ceil(1440 / intervalMinutes); the ceiling already accounts for the final
partial stride, and the end-of-day cutoff prevents any further sample. -/
theorem claim_C6_amended (f : ℕ → SunPosition) (m : ℕ) (hm : 1 ≤ m) :
    (computeSunPositionData f m).length = (1440 + m - 1) / m := by
  rw [computeSunPositionData_length f m hm,
    show 1440 + m - 1 = 1439 + m from by omega,
    Nat.add_div_right 1439 hm]

/-- Witness for the amended C6 at interval 10. -/
theorem claim_C6_amended_witness :
    1 ≤ 10 ∧
      (computeSunPositionData (fun _ => ⟨0, 0⟩) 10).length = (1440 + 10 - 1) / 10 :=
  ⟨by norm_num, claim_C6_amended (fun _ => ⟨0, 0⟩) 10 (by norm_num)⟩

/-- At altitude π/2 the degree conversion gives exactly 90, so the base of the
Kasten-Young power term is 96.07995. -/
lemma zenith_base : Real.pi / 2 * 180 / Real.pi + 6.07995 = 96.07995 := by
  have hπ : Real.pi ≠ 0 := Real.pi_ne_zero
  field_simp
  ring

/-- The Kasten-Young correction term at the zenith is strictly positive. -/
lemma zenith_pow_pos : 0 < (96.07995 : ℝ) ^ (-1.6364 : ℝ) :=
  Real.rpow_pos_of_pos (by norm_num) _

/-- The Kasten-Young correction term at the zenith is at most 1/96. -/
lemma zenith_pow_le : (96.07995 : ℝ) ^ (-1.6364 : ℝ) ≤ 1 / 96 := by
  rw [Real.rpow_neg (by norm_num)]
  have h1 : (96.07995 : ℝ) ^ (1 : ℝ) ≤ (96.07995 : ℝ) ^ (1.6364 : ℝ) :=
    Real.rpow_le_rpow_of_exponent_le (by norm_num) (by norm_num)
  rw [Real.rpow_one] at h1
  have h2 : (96 : ℝ) ≤ (96.07995 : ℝ) ^ (1.6364 : ℝ) := by linarith
  have h3 : ((96.07995 : ℝ) ^ (1.6364 : ℝ))⁻¹ ≤ (96 : ℝ)⁻¹ :=
    inv_le_inv_of_le (by norm_num) h2
  calc ((96.07995 : ℝ) ^ (1.6364 : ℝ))⁻¹ ≤ (96 : ℝ)⁻¹ := h3
    _ = 1 / 96 := by norm_num

/-- Exponential upper bound used to control the clamp: `exp x ≤ 1 / (1 - x)`
for `x < 1`. -/
lemma exp_le_one_div_one_sub {x : ℝ} (hx : x < 1) :
    Real.exp x ≤ 1 / (1 - x) := by
  have h := Real.add_one_le_exp (-x)
  rw [Real.exp_neg] at h
  have hpos := Real.exp_pos x
  rw [le_div_iff (by linarith)]
  have hmul : (-x + 1) * Real.exp x ≤ (Real.exp x)⁻¹ * Real.exp x :=
    mul_le_mul_of_nonneg_right h hpos.le
  rw [inv_mul_cancel₀ hpos.ne'] at hmul
  nlinarith

/-- Zenith sun on the roof surface: geometric factor exactly 1 and intensity
strictly between 0.8 and 0.801 (slightly above τ0 because the Kasten-Young
air mass at 90° is slightly below 1). -/
lemma zenith_roof_bounds (az saz : ℝ) :
    max 0 (dotProduct az (Real.pi / 2) saz (Real.pi / 2)) = 1 ∧
      0.8 < calculateIntensity ⟨az, Real.pi / 2⟩ saz (Real.pi / 2) ∧
      calculateIntensity ⟨az, Real.pi / 2⟩ saz (Real.pi / 2) < 0.801 := by
  have hdot : dotProduct az (Real.pi / 2) saz (Real.pi / 2) = 1 := by
    rw [dotProduct_eq]
    simp [Real.cos_pi_div_two, Real.sin_pi_div_two]
  have hg : max 0 (dotProduct az (Real.pi / 2) saz (Real.pi / 2)) = 1 := by
    rw [hdot]; exact max_eq_right zero_le_one
  have hpos : ¬ (Real.pi / 2 ≤ 0) := not_le.mpr (by positivity)
  have hden : amDenom (Real.pi / 2) = 1 + 0.50572 * (96.07995 : ℝ) ^ (-1.6364 : ℝ) := by
    unfold amDenom
    rw [zenith_base, Real.sin_pi_div_two]
  have hP1 := zenith_pow_pos
  have hP2 := zenith_pow_le
  set P : ℝ := (96.07995 : ℝ) ^ (-1.6364 : ℝ) with hP
  have hden_lb : 1 < amDenom (Real.pi / 2) := by rw [hden]; nlinarith
  have hden_ub : amDenom (Real.pi / 2) ≤ 1 + 0.50572 / 96 := by rw [hden]; nlinarith
  set am : ℝ := 1 / amDenom (Real.pi / 2) with ham
  have ham_lt : am < 1 := by
    rw [ham, div_lt_one (by linarith)]; exact hden_lb
  have ham_gt : 0.9947 < am := by
    rw [ham, lt_div_iff (by linarith)]
    nlinarith
  have hAM : calculateAirMass (Real.pi / 2) = some am := by
    unfold calculateAirMass
    rw [if_neg hpos]
  set x : ℝ := -0.08 * (am - 1) with hx
  have hx_pos : 0 < x := by rw [hx]; nlinarith
  have hx_ub : x ≤ 0.000425 := by rw [hx]; nlinarith
  have hexp_lb : 1 < Real.exp x := by
    have := Real.add_one_le_exp x; linarith
  have hexp_ub : Real.exp x ≤ 1.000426 := by
    have h := exp_le_one_div_one_sub (show x < 1 by linarith)
    have h2 : 1 / (1 - x) ≤ 1.000426 := by
      rw [div_le_iff (by nlinarith)]
      nlinarith
    linarith
  have hτraw_lb : 0.8 < 0.8 * Real.exp x := by nlinarith
  have hτraw_ub : 0.8 * Real.exp x < 0.801 := by nlinarith
  have hτ : calculateAtmosphericTransmittance (calculateAirMass (Real.pi / 2)) =
      0.8 * Real.exp x := by
    rw [hAM]
    show max 0 (min 1 (0.8 * Real.exp (-0.08 * (am - 1)))) = 0.8 * Real.exp x
    rw [← hx, min_eq_right (by linarith), max_eq_right (by linarith)]
  have hI : calculateIntensity ⟨az, Real.pi / 2⟩ saz (Real.pi / 2) =
      0.8 * Real.exp x := by
    unfold calculateIntensity
    show max 0 (dotProduct az (Real.pi / 2) saz (Real.pi / 2)) *
        calculateAtmosphericTransmittance (calculateAirMass (Real.pi / 2)) =
      0.8 * Real.exp x
    rw [hg, hτ, one_mul]
  exact ⟨hg, by rw [hI]; exact hτraw_lb, by rw [hI]; exact hτraw_ub⟩

/-- C4 counterexample: at the zenith over the roof the intensity is not
exactly 0.8 (it is strictly greater, because the Kasten-Young air mass at 90°
is strictly below 1, so the transmittance exceeds τ0). -/
theorem claim_C4_counterexample :
    calculateIntensity ⟨0, Real.pi / 2⟩ 0 (Real.pi / 2) ≠ 0.8 :=
  ne_of_gt (zenith_roof_bounds 0 0).2.1

/-- C4 amended: for altitude π/2 (any sun azimuth) and the roof surface
(tilt = π/2, any side azimuth) the geometric factor is exactly 1, and the
intensity equals the transmittance of the Kasten-Young air mass at 90°, which
lies strictly between 0.8 and 0.801 (slightly above τ0 = 0.8, not equal to
it, because the air mass at the zenith is slightly below 1). -/
theorem claim_C4_amended (az saz : ℝ) :
    max 0 (dotProduct az (Real.pi / 2) saz (Real.pi / 2)) = 1 ∧
      0.8 < calculateIntensity ⟨az, Real.pi / 2⟩ saz (Real.pi / 2) ∧
      calculateIntensity ⟨az, Real.pi / 2⟩ saz (Real.pi / 2) < 0.801 :=
  zenith_roof_bounds az saz

/-- For nonnegative air masses the clamp in the transmittance is inactive:
the raw value `0.8 * exp (-0.08 * (am - 1))` already lies in `(0, 1]`. -/
lemma tau_some_eq {z : ℝ} (hz : 0 ≤ z) :
    calculateAtmosphericTransmittance (some z) =
      0.8 * Real.exp (-0.08 * (z - 1)) := by
  show max 0 (min 1 (0.8 * Real.exp (-0.08 * (z - 1)))) = _
  have hzexp : Real.exp (-0.08 * (z - 1)) ≤ Real.exp 0.08 :=
    Real.exp_le_exp.mpr (by nlinarith)
  have hexp08 : Real.exp 0.08 ≤ 1 / 0.92 := by
    have h := exp_le_one_div_one_sub (show (0.08:ℝ) < 1 by norm_num)
    calc Real.exp 0.08 ≤ 1 / (1 - 0.08) := h
      _ = 1 / 0.92 := by norm_num
  have h1 : 0.8 * Real.exp (-0.08 * (z - 1)) ≤ 1 := by nlinarith
  have h0 : 0 ≤ 0.8 * Real.exp (-0.08 * (z - 1)) := by positivity
  rw [min_eq_right h1, max_eq_right h0]

/-- The transmittance is strictly decreasing in the (finite, nonnegative)
air mass. -/
lemma tau_strict_anti {x y : ℝ} (hx : 0 ≤ x) (hxy : x < y) :
    calculateAtmosphericTransmittance (some y) <
      calculateAtmosphericTransmittance (some x) := by
  rw [tau_some_eq hx, tau_some_eq (by linarith : (0:ℝ) ≤ y)]
  have h : Real.exp (-0.08 * (y - 1)) < Real.exp (-0.08 * (x - 1)) :=
    Real.exp_lt_exp.mpr (by nlinarith)
  nlinarith

/-- The air-mass denominator is positive for altitudes in `(0, π)`. -/
lemma amDenom_pos {a : ℝ} (h0 : 0 < a) (hπ : a < Real.pi) : 0 < amDenom a := by
  unfold amDenom
  have hsin : 0 < Real.sin a := Real.sin_pos_of_pos_of_lt_pi h0 hπ
  have hbase : 0 < a * 180 / Real.pi + 6.07995 := by
    have : 0 ≤ a * 180 / Real.pi :=
      div_nonneg (mul_nonneg h0.le (by norm_num)) Real.pi_pos.le
    linarith
  have hrp : 0 < (a * 180 / Real.pi + 6.07995) ^ (-1.6364 : ℝ) :=
    Real.rpow_pos_of_pos hbase _
  nlinarith

/-- Lower bound for the power `u ^ 2.6364` via the fifth power of a rational
lower bound of the base. -/
lemma rpow_26364_ge {lb V u : ℝ} (hlb : 1 ≤ lb) (hV : 0 ≤ V)
    (h5 : V ^ 2 ≤ lb ^ 5) (hu : lb ≤ u) : V ≤ u ^ (2.6364 : ℝ) := by
  have hlb0 : (0:ℝ) ≤ lb := by linarith
  have e0 : (lb ^ ((5:ℝ)/2)) ^ (2:ℕ) = lb ^ (5:ℕ) := by
    rw [← Real.rpow_natCast (lb ^ ((5:ℝ)/2)) 2, ← Real.rpow_mul hlb0,
      show (5:ℝ)/2 * ((2:ℕ):ℝ) = ((5:ℕ):ℝ) from by norm_num, Real.rpow_natCast]
  have e1 : V ≤ lb ^ ((5:ℝ)/2) := by
    refine le_of_pow_le_pow_left₀ (by norm_num : (2:ℕ) ≠ 0)
      (Real.rpow_nonneg hlb0 _) ?_
    rw [e0]
    exact h5
  have e2 : lb ^ ((5:ℝ)/2) ≤ lb ^ (2.6364:ℝ) :=
    Real.rpow_le_rpow_of_exponent_le hlb (by norm_num)
  have e3 : lb ^ (2.6364:ℝ) ≤ u ^ (2.6364:ℝ) :=
    Real.rpow_le_rpow hlb0 hu (by norm_num)
  linarith

/-- Derivative of the air-mass denominator. -/
lemma amDenom_hasDerivAt (a : ℝ) (hu : a * 180 / Real.pi + 6.07995 ≠ 0) :
    HasDerivAt amDenom
      (Real.cos a + 0.50572 * (1 * 180 / Real.pi * (-1.6364) *
        (a * 180 / Real.pi + 6.07995) ^ (-1.6364 - 1 : ℝ))) a := by
  have h1 : HasDerivAt (fun x : ℝ => x * 180 / Real.pi + 6.07995)
      (1 * 180 / Real.pi) a :=
    (((hasDerivAt_id a).mul_const (180:ℝ)).div_const Real.pi).add_const 6.07995
  have h2 : HasDerivAt
      (fun x : ℝ => (x * 180 / Real.pi + 6.07995) ^ (-1.6364 : ℝ))
      (1 * 180 / Real.pi * (-1.6364) *
        (a * 180 / Real.pi + 6.07995) ^ (-1.6364 - 1 : ℝ)) a :=
    h1.rpow_const (Or.inl hu)
  have h4 := (Real.hasDerivAt_sin a).add (h2.const_mul (0.50572 : ℝ))
  unfold amDenom
  exact h4


/-- The derivative of the air-mass denominator is strictly positive for
altitudes in `(0, 1.569)`: the cosine dominates the (negative) derivative of
the Kasten-Young correction term throughout this range. -/
lemma amDenom_deriv_pos {a : ℝ} (ha : 0 < a) (ha2 : a < 1.569) :
    0 < deriv amDenom a := by
  have hπl : (3.141592 : ℝ) < Real.pi := Real.pi_gt_d6
  have hπu : Real.pi < 3.141593 := Real.pi_lt_d6
  have hπ0 : (0:ℝ) < Real.pi := Real.pi_pos
  obtain ⟨u, hu_def⟩ : ∃ u : ℝ, u = a * 180 / Real.pi + 6.07995 := ⟨_, rfl⟩
  have hak : 0 < a * 180 / Real.pi := by positivity
  have hu_lb : 6.07995 < u := by rw [hu_def]; linarith only [hak]
  have hu_pos : 0 < u := by linarith only [hu_lb]
  have hderiv := (amDenom_hasDerivAt a (by rw [← hu_def]; exact hu_pos.ne')).deriv
  rw [show (-1.6364 - 1 : ℝ) = -(2.6364 : ℝ) from by norm_num] at hderiv
  rw [← hu_def] at hderiv
  rw [Real.rpow_neg hu_pos.le, one_mul] at hderiv
  obtain ⟨I, hI_def⟩ : ∃ I : ℝ, I = (u ^ (2.6364:ℝ))⁻¹ := ⟨_, rfl⟩
  rw [← hI_def] at hderiv
  have hI_pos : 0 < I := by
    rw [hI_def]; exact inv_pos.mpr (Real.rpow_pos_of_pos hu_pos _)
  have hK_pos : 0 < 180 / Real.pi := by positivity
  have hK_ub : 180 / Real.pi < 57.2958 := by
    rw [div_lt_iff hπ0]; linarith only [hπl]
  have hK_lb : 57.29577 < 180 / Real.pi := by
    rw [lt_div_iff hπ0]; linarith only [hπu]
  have hmain : 0.50572 * 1.6364 * (180 / Real.pi * I) < Real.cos a := by
    rcases le_or_lt a 0.9 with hc | hc
    · -- low altitudes: base at least 6.07995, cosine at least 0.595
      have hcq : 1 - a^2/2 ≤ Real.cos a := Real.one_sub_sq_div_two_le_cos
      have hcos : (0.595:ℝ) ≤ Real.cos a := by nlinarith only [hcq, hc, ha]
      have hVle : (91:ℝ) ≤ u ^ (2.6364:ℝ) :=
        rpow_26364_ge (by norm_num) (by norm_num) (by norm_num) hu_lb.le
      have hI_ub : I ≤ 1/91 := by
        rw [hI_def, ← one_div]
        exact one_div_le_one_div_of_le (by norm_num) hVle
      have h1 : 180 / Real.pi * I ≤ 57.2958 * (1/91) :=
        mul_le_mul hK_ub.le hI_ub hI_pos.le (by norm_num)
      linarith only [h1, hcos]
    · rcases le_or_lt a 1.45 with hc2 | hc2
      · -- middle altitudes
        have hu2 : (57.646:ℝ) ≤ u := by
          have h09 : 0.9 * 57.29577 ≤ a * (180 / Real.pi) :=
            mul_le_mul hc.le hK_lb.le (by norm_num) (by linarith only [ha])
          have h09m : 0.9 * 57.29577 ≤ a * 180 / Real.pi := by
            rw [mul_div_assoc]; exact h09
          rw [hu_def]; linarith only [h09m]
        have hcos_eq : Real.cos a = Real.sin (Real.pi/2 - a) :=
          (Real.sin_pi_div_two_sub a).symm
        have hx_pos : 0 < Real.pi/2 - a := by linarith only [hπl, hc2]
        have hx_le : Real.pi/2 - a ≤ 1 := by linarith only [hπu, hc]
        have hx_lb : 0.120796 ≤ Real.pi/2 - a := by linarith only [hπl, hc2]
        have hx_ub : Real.pi/2 - a ≤ 0.6708 := by linarith only [hπu, hc]
        have hsin := Real.sin_gt_sub_cube hx_pos hx_le
        have hx2 : (Real.pi/2 - a)^2 ≤ 0.45 := by
          nlinarith only [hx_ub, hx_pos]
        have hcos : (0.107:ℝ) ≤ Real.cos a := by
          rw [hcos_eq]
          nlinarith only [hsin, hx_lb, hx_pos,
            mul_le_mul_of_nonneg_left hx2 hx_pos.le]
        have hVle : (3323:ℝ) ≤ u ^ (2.6364:ℝ) :=
          rpow_26364_ge (by norm_num) (by norm_num) (by norm_num) hu2
        have hI_ub : I ≤ 1/3323 := by
          rw [hI_def, ← one_div]
          exact one_div_le_one_div_of_le (by norm_num) hVle
        have h1 : 180 / Real.pi * I ≤ 57.2958 * (1/3323) :=
          mul_le_mul hK_ub.le hI_ub hI_pos.le (by norm_num)
        linarith only [h1, hcos]
      · -- near-zenith altitudes up to 1.569
        have hu3 : (89.158:ℝ) ≤ u := by
          have h145 : 1.45 * 57.29577 ≤ a * (180 / Real.pi) :=
            mul_le_mul hc2.le hK_lb.le (by norm_num) (by linarith only [ha])
          have h145m : 1.45 * 57.29577 ≤ a * 180 / Real.pi := by
            rw [mul_div_assoc]; exact h145
          rw [hu_def]; linarith only [h145m]
        have hcos_eq : Real.cos a = Real.sin (Real.pi/2 - a) :=
          (Real.sin_pi_div_two_sub a).symm
        have hx_pos : 0 < Real.pi/2 - a := by linarith only [hπl, ha2]
        have hx_le : Real.pi/2 - a ≤ 1 := by linarith only [hπu, hc2]
        have hx_lb : 0.001796 ≤ Real.pi/2 - a := by linarith only [hπl, ha2]
        have hx_ub : Real.pi/2 - a ≤ 0.1208 := by linarith only [hπu, hc2]
        have hsin := Real.sin_gt_sub_cube hx_pos hx_le
        have hx2 : (Real.pi/2 - a)^2 ≤ 0.0146 := by
          nlinarith only [hx_ub, hx_pos]
        have hcos : (0.00178:ℝ) ≤ Real.cos a := by
          rw [hcos_eq]
          nlinarith only [hsin, hx_lb, hx_pos,
            mul_le_mul_of_nonneg_left hx2 hx_pos.le]
        have hVle : (75000:ℝ) ≤ u ^ (2.6364:ℝ) :=
          rpow_26364_ge (by norm_num) (by norm_num) (by norm_num) hu3
        have hI_ub : I ≤ 1/75000 := by
          rw [hI_def, ← one_div]
          exact one_div_le_one_div_of_le (by norm_num) hVle
        have h1 : 180 / Real.pi * I ≤ 57.2958 * (1/75000) :=
          mul_le_mul hK_ub.le hI_ub hI_pos.le (by norm_num)
        linarith only [h1, hcos]
  rw [hderiv]
  linarith only [hmain]

/-- The air-mass denominator is strictly increasing on altitudes `[0, 1.569]`. -/
lemma amDenom_strictMono : StrictMonoOn amDenom (Set.Icc (0:ℝ) 1.569) := by
  apply strictMonoOn_of_deriv_pos (convex_Icc 0 1.569)
  · intro b hb
    have hbase : 0 < b * 180 / Real.pi + 6.07995 := by
      have h0 : 0 ≤ b * 180 / Real.pi :=
        div_nonneg (mul_nonneg hb.1 (by norm_num)) Real.pi_pos.le
      linarith only [h0]
    exact ((amDenom_hasDerivAt b hbase.ne').continuousAt).continuousWithinAt
  · intro b hb
    rw [interior_Icc] at hb
    exact amDenom_deriv_pos hb.1 hb.2

/-- C5 amended: transmittance is strictly decreasing in air mass, and for a
fixed positive geometric factor the intensity is strictly decreasing as the
altitude decreases, for altitudes in the range `(0, 1.569]`; the property does
not extend to the full range `(0, π/2]` (see the counterexample, where air
mass decreases together with altitude just below the zenith). -/
theorem claim_C5_amended (g a1 a2 : ℝ) (hg : 0 < g) (h1 : 0 < a1) (h12 : a1 < a2)
    (h2 : a2 ≤ 1.569) :
    g * calculateAtmosphericTransmittance (calculateAirMass a1) <
      g * calculateAtmosphericTransmittance (calculateAirMass a2) := by
  have hπ : (1.569:ℝ) < Real.pi := by linarith only [Real.pi_gt_d6]
  have hd1 : 0 < amDenom a1 := amDenom_pos h1 (by linarith only [h12, h2, hπ])
  have hd2 : 0 < amDenom a2 := amDenom_pos (by linarith only [h1, h12])
    (by linarith only [h2, hπ])
  have hmono : amDenom a1 < amDenom a2 :=
    amDenom_strictMono ⟨h1.le, by linarith only [h12, h2]⟩
      ⟨by linarith only [h1, h12], h2⟩ h12
  have hAMlt : 1 / amDenom a2 < 1 / amDenom a1 :=
    one_div_lt_one_div_of_lt hd1 hmono
  have hAM1 : calculateAirMass a1 = some (1 / amDenom a1) := by
    unfold calculateAirMass; rw [if_neg (not_le.mpr h1)]
  have hAM2 : calculateAirMass a2 = some (1 / amDenom a2) := by
    unfold calculateAirMass; rw [if_neg (not_le.mpr (by linarith only [h1, h12]))]
  rw [hAM1, hAM2]
  exact mul_lt_mul_of_pos_left
    (tau_strict_anti (one_div_nonneg.mpr hd2.le) hAMlt) hg

/-- Witness for the amended C5 at altitudes 1 and 3/2 with geometric factor 1. -/
theorem claim_C5_amended_witness :
    (0:ℝ) < 1 ∧ (0:ℝ) < 1 ∧ (1:ℝ) < 3/2 ∧ (3/2:ℝ) ≤ 1.569 ∧
      1 * calculateAtmosphericTransmittance (calculateAirMass 1) <
        1 * calculateAtmosphericTransmittance (calculateAirMass (3/2)) :=
  ⟨by norm_num, by norm_num, by norm_num, by norm_num,
    claim_C5_amended 1 1 (3/2) (by norm_num) (by norm_num) (by norm_num) (by norm_num)⟩

/-- The air-mass denominator at the zenith. -/
lemma amDenom_zenith :
    amDenom (Real.pi / 2) = 1 + 0.50572 * (96.07995 : ℝ) ^ (-1.6364 : ℝ) := by
  unfold amDenom
  rw [zenith_base, Real.sin_pi_div_two]

/-- Just below the zenith the air-mass denominator is larger than at the
zenith itself: lowering the altitude by `1e-5` rad costs only `O(1e-10)` of
sine but gains more from the decreasing Kasten-Young power term, so the air
mass is not monotone in altitude near the zenith. -/
lemma near_zenith_denom_lt :
    amDenom (Real.pi / 2) < amDenom (Real.pi / 2 - 1/100000) := by
  have hπl : (3.141592 : ℝ) < Real.pi := Real.pi_gt_d6
  have hπu : Real.pi < 3.141593 := Real.pi_lt_d6
  have hπ0 : (0:ℝ) < Real.pi := Real.pi_pos
  have hπne : Real.pi ≠ 0 := Real.pi_ne_zero
  have hbase : (Real.pi / 2 - 1/100000) * 180 / Real.pi + 6.07995
      = 96.07995 - 0.0018 / Real.pi := by
    field_simp
    ring
  obtain ⟨δ, hδ_def⟩ : ∃ d : ℝ, d = 0.0018 / Real.pi := ⟨_, rfl⟩
  have hδ_lb : 0.00057295 < δ := by
    rw [hδ_def, lt_div_iff hπ0]; linarith only [hπu]
  have hδ_ub : δ < 0.00057296 := by
    rw [hδ_def, div_lt_iff hπ0]; linarith only [hπl]
  have hδ_pos : 0 < δ := by linarith only [hδ_lb]
  have hA_pos : (0:ℝ) < 96.07995 - δ := by linarith only [hδ_ub]
  have hs_pos : 0 < δ / (96.07995 - δ) := div_pos hδ_pos hA_pos
  have hbern : 1 + 1.6364 * (δ / (96.07995 - δ))
      ≤ (1 + δ / (96.07995 - δ)) ^ (1.6364:ℝ) :=
    one_add_mul_self_le_rpow_one_add (by linarith only [hs_pos]) (by norm_num)
  have hfrac : 1 + δ / (96.07995 - δ) = 96.07995 / (96.07995 - δ) := by
    field_simp
  rw [hfrac] at hbern
  have hdivp : ((96.07995:ℝ) / (96.07995 - δ)) ^ (1.6364:ℝ)
      = (96.07995:ℝ) ^ (1.6364:ℝ) / (96.07995 - δ) ^ (1.6364:ℝ) :=
    Real.div_rpow (by norm_num) hA_pos.le _
  rw [hdivp] at hbern
  have hApow_pos : 0 < (96.07995:ℝ) ^ (1.6364:ℝ) :=
    Real.rpow_pos_of_pos (by norm_num) _
  have hBpow_pos : 0 < ((96.07995:ℝ) - δ) ^ (1.6364:ℝ) :=
    Real.rpow_pos_of_pos hA_pos _
  rw [le_div_iff hBpow_pos] at hbern
  have hkey : (96.07995:ℝ) ^ (-1.6364:ℝ) * (1 + 1.6364 * (δ / (96.07995 - δ)))
      ≤ ((96.07995:ℝ) - δ) ^ (-1.6364:ℝ) := by
    rw [Real.rpow_neg (by norm_num : (0:ℝ) ≤ 96.07995), Real.rpow_neg hA_pos.le]
    rw [mul_comm (((96.07995:ℝ) ^ (1.6364:ℝ))⁻¹)
        (1 + 1.6364 * (δ / (96.07995 - δ))),
      ← div_eq_mul_inv, inv_eq_one_div, div_le_div_iff hApow_pos hBpow_pos]
    linarith only [hbern]
  have hs_lb : (0.0000059:ℝ) ≤ δ / (96.07995 - δ) := by
    rw [le_div_iff hA_pos]
    linarith only [hδ_lb, hδ_ub]
  have hApinv_lb : (1/9232 : ℝ) ≤ (96.07995:ℝ) ^ (-1.6364:ℝ) := by
    rw [Real.rpow_neg (by norm_num : (0:ℝ) ≤ 96.07995), ← one_div]
    have hle1 : (96.07995:ℝ) ^ (1.6364:ℝ) ≤ (96.07995:ℝ) ^ ((2:ℕ):ℝ) :=
      Real.rpow_le_rpow_of_exponent_le (by norm_num) (by norm_num)
    rw [Real.rpow_natCast] at hle1
    have hle2 : ((96.07995:ℝ)) ^ (2:ℕ) ≤ 9232 := by norm_num
    exact one_div_le_one_div_of_le hApow_pos (by linarith only [hle1, hle2])
  have hprod : (1/9232) * 0.0000059
      ≤ (96.07995:ℝ) ^ (-1.6364:ℝ) * (δ / (96.07995 - δ)) :=
    mul_le_mul hApinv_lb hs_lb (by norm_num)
      (Real.rpow_pos_of_pos (by norm_num) _).le
  have hcos : 1 - (1/100000:ℝ)^2/2 ≤ Real.cos (1/100000) :=
    Real.one_sub_sq_div_two_le_cos
  have hsin_eq : Real.sin (Real.pi/2 - 1/100000) = Real.cos (1/100000) :=
    Real.sin_pi_div_two_sub _
  have hrhs : amDenom (Real.pi / 2 - 1/100000)
      = Real.cos (1/100000) + 0.50572 * ((96.07995:ℝ) - δ) ^ (-1.6364:ℝ) := by
    unfold amDenom
    rw [hbase, hsin_eq, ← hδ_def]
  rw [amDenom_zenith, hrhs]
  nlinarith only [hkey, hprod, hcos]

/-- C5 counterexample: the intensity (at fixed geometric factor) is not
strictly decreasing as altitude decreases over all of `(0, π/2]`: lowering the
altitude from `π/2` to `π/2 - 1e-5` strictly increases the transmittance,
because the Kasten-Young air mass at the zenith exceeds the air mass slightly
below it. -/
theorem claim_C5_counterexample :
    calculateAtmosphericTransmittance (calculateAirMass (Real.pi / 2)) <
      calculateAtmosphericTransmittance (calculateAirMass (Real.pi / 2 - 1/100000)) := by
  have hπl : (3.141592 : ℝ) < Real.pi := Real.pi_gt_d6
  have h1 : (0:ℝ) < Real.pi / 2 := by linarith only [hπl]
  have h2 : (0:ℝ) < Real.pi / 2 - 1/100000 := by linarith only [hπl]
  have hd1 : 0 < amDenom (Real.pi / 2) := amDenom_pos h1 (by linarith only [hπl])
  have hd2 : 0 < amDenom (Real.pi / 2 - 1/100000) :=
    amDenom_pos h2 (by linarith only [hπl])
  have hAM1 : calculateAirMass (Real.pi / 2) = some (1 / amDenom (Real.pi / 2)) := by
    unfold calculateAirMass; rw [if_neg (not_le.mpr h1)]
  have hAM2 : calculateAirMass (Real.pi / 2 - 1/100000)
      = some (1 / amDenom (Real.pi / 2 - 1/100000)) := by
    unfold calculateAirMass; rw [if_neg (not_le.mpr h2)]
  rw [hAM1, hAM2]
  exact tau_strict_anti (one_div_nonneg.mpr hd2.le)
    (one_div_lt_one_div_of_lt hd1 near_zenith_denom_lt)
